import Mathlib

/-!
Verification of the ALmoMD active-learning criteria engine and the
NVT-Langevin sampling loop, shallowly embedded from
src/libs/lib_criteria.py and src/libs/lib_cont_nvtlangevin_temp.py.

Real-valued quantities are modelled over the reals.  The error function
from scipy (special.erf) is an external collaborator; the embedded
functions take it as an explicit parameter, and theorems that need its
range state that range as a hypothesis.  A call to sys.exit is modelled
as Except.error; a read of an unassigned Python local (NameError) is
modelled as Option.none.
-/

namespace ALmoMD

/-- Embeds get_criteria_uncert (src/libs/lib_criteria.py, lines 565-619).
The branch on uncert_type selects relative or absolute inputs; an
unrecognized uncert_type leaves criteria_Uncert unassigned, so the
Python return statement raises NameError, modelled as none. -/
noncomputable def get_criteria_uncert (erf : ℝ → ℝ) (uncert_type : String)
    (UncertAbs criteria_UncertAbs_avg criteria_UncertAbs_std
     UncertRel criteria_UncertRel_avg criteria_UncertRel_std : ℝ) : Option ℝ :=
  if uncert_type = "relative" then
    some (0.5 * (1 + erf (((UncertRel - criteria_UncertRel_avg) -
      0.2661 * criteria_UncertRel_std) /
        (criteria_UncertRel_std * Real.sqrt (2 * 0.1)))))
  else if uncert_type = "absolute" then
    some (0.5 * (1 + erf (((UncertAbs - criteria_UncertAbs_avg) -
      0.2661 * criteria_UncertAbs_std) /
        (criteria_UncertAbs_std * Real.sqrt (2 * 0.1)))))
  else none

/-- Embeds the hard acceptance band of the force_max branch of
get_criteria_prob (src/libs/lib_criteria.py, line 526 and line 533):
criteria_Uncert_F = 1 if 0.05 < UncertAbs_F < 0.20 else 0. -/
noncomputable def criteria_Uncert_Fmax (UncertAbs_F : ℝ) : ℝ :=
  if 0.05 < UncertAbs_F ∧ UncertAbs_F < 0.20 then 1 else 0

/-- Embeds the canonical-ensemble part of get_criteria_prob
(src/libs/lib_criteria.py, lines 537-554): the Boltzmann factor of the
per-atom total energy, normalized by the factor at the calibration
average, raised to the exponent log(0.2)/log(Prob_lower/Prob_upper),
then capped at 1. -/
noncomputable def criteria_Prob_canonical
    (kB NumAtoms temperature Etot_step
     criteria_Etot_step_avg criteria_Etot_step_std : ℝ) : ℝ :=
  let Prob := Real.exp ((-1) * (Etot_step / NumAtoms) / (kB * temperature))
  let Prob_upper_limit :=
    Real.exp ((-1) * (criteria_Etot_step_avg / NumAtoms) / (kB * temperature))
  let Prob_lower_limit :=
    Real.exp ((-1) * ((criteria_Etot_step_avg + criteria_Etot_step_std) / NumAtoms) /
      (kB * temperature))
  let criteria_Prob_inter := Prob / Prob_upper_limit
  let criteria_Prob := criteria_Prob_inter ^
    (Real.log 0.2 / Real.log (Prob_lower_limit / Prob_upper_limit))
  if criteria_Prob > 1 then 1 else criteria_Prob

/-- Embeds the mode dispatch of get_criteria_prob
(src/libs/lib_criteria.py, lines 506-535), producing the pair
(criteria_Uncert_E, criteria_Uncert_F).  Both default to 1; the chosen
branch overrides one or both.  The final else branch only prints a
diagnostic (single_print) and leaves the defaults in place. -/
noncomputable def criteria_sub_scores (erf : ℝ → ℝ)
    (al_type uncert_type : String)
    (UncertAbs_E cAE_avg cAE_std UncertRel_E cRE_avg cRE_std
     UncertAbs_F cAF_avg cAF_std UncertRel_F cRF_avg cRF_std : ℝ) :
    Option (ℝ × ℝ) :=
  if al_type = "energy" then
    (get_criteria_uncert erf uncert_type
      UncertAbs_E cAE_avg cAE_std UncertRel_E cRE_avg cRE_std).map
      (fun pE => (pE, 1))
  else if al_type = "force" then
    (get_criteria_uncert erf uncert_type
      UncertAbs_F cAF_avg cAF_std UncertRel_F cRF_avg cRF_std).map
      (fun pF => (1, pF))
  else if al_type = "force_max" then
    some (1, criteria_Uncert_Fmax UncertAbs_F)
  else if al_type = "EandFmax" ∨ al_type = "EorFmax" then
    (get_criteria_uncert erf uncert_type
      UncertAbs_E cAE_avg cAE_std UncertRel_E cRE_avg cRE_std).map
      (fun pE => (pE, criteria_Uncert_Fmax UncertAbs_F))
  else
    some (1, 1)

/-- Embeds get_criteria_prob (src/libs/lib_criteria.py, lines 436-561):
the sub-scores from the mode dispatch are combined with the
canonical-ensemble probability, by the complement-product formula for
EorFmax and by the plain product otherwise. -/
noncomputable def get_criteria_prob (erf : ℝ → ℝ)
    (al_type uncert_type : String)
    (kB NumAtoms temperature
     Etot_step criteria_Etot_step_avg criteria_Etot_step_std
     UncertAbs_E cAE_avg cAE_std UncertRel_E cRE_avg cRE_std
     UncertAbs_F cAF_avg cAF_std UncertRel_F cRF_avg cRF_std : ℝ) :
    Option ℝ :=
  (criteria_sub_scores erf al_type uncert_type
      UncertAbs_E cAE_avg cAE_std UncertRel_E cRE_avg cRE_std
      UncertAbs_F cAF_avg cAF_std UncertRel_F cRF_avg cRF_std).map
    (fun p =>
      let criteria_Prob := criteria_Prob_canonical kB NumAtoms temperature
        Etot_step criteria_Etot_step_avg criteria_Etot_step_std
      if al_type = "EorFmax" then
        1 - (1 - p.1) * (1 - p.2) * criteria_Prob
      else
        p.1 * p.2 * criteria_Prob)

/-- Population average over the predictor axis (np.average, axis=0) of a
family of scalars indexed by predictors. -/
noncomputable def predAvg (P : ℕ) (E : Fin P → ℝ) : ℝ :=
  (∑ p, E p) / P

/-- Population standard deviation over the predictor axis (np.std,
axis=0, divisor P) of a family of scalars indexed by predictors. -/
noncomputable def predStd (P : ℕ) (E : Fin P → ℝ) : ℝ :=
  Real.sqrt ((∑ p, (E p - predAvg P E) ^ 2) / P)

/-- Embeds F_step_avg (src/libs/lib_criteria.py line 233 and
src/libs/lib_cont_nvtlangevin_temp.py line 398): componentwise mean of
the force tensor over the predictor axis. -/
noncomputable def F_step_avg (P A : ℕ) (F : Fin P → Fin A → Fin 3 → ℝ)
    (a : Fin A) (c : Fin 3) : ℝ :=
  (∑ p, F p a c) / P

/-- Embeds F_step_norm_std of get_forces_temp
(src/libs/lib_cont_nvtlangevin_temp.py lines 399-400): for each atom,
the root-mean-square over predictors of the Euclidean norm of the
deviation of that predictor force from the mean force. -/
noncomputable def F_step_norm_std_temp (P A : ℕ)
    (F : Fin P → Fin A → Fin 3 → ℝ) (a : Fin A) : ℝ :=
  Real.sqrt ((∑ p,
    (Real.sqrt (∑ c, (F p a c - F_step_avg P A F a c) ^ 2)) ^ 2) / P)

/-- Embeds F_step_norm_std of eval_uncert_F (src/libs/lib_criteria.py
lines 234-235).  There np.linalg.norm is applied with axis=1, the ATOM
axis of the (predictors, atoms, components) tensor, so the statistic is
indexed by force component: for each component, the root-mean-square
over predictors of the norm over atoms of the deviations. -/
noncomputable def F_step_norm_std_criteria (P A : ℕ)
    (F : Fin P → Fin A → Fin 3 → ℝ) (c : Fin 3) : ℝ :=
  Real.sqrt ((∑ p,
    (Real.sqrt (∑ a, (F p a c - F_step_avg P A F a c) ^ 2)) ^ 2) / P)

/-- Embeds F_step_norm_avg of eval_uncert_F (src/libs/lib_criteria.py
line 236): np.linalg.norm of the mean force with axis=0, the atom
axis, again indexed by component. -/
noncomputable def F_step_norm_avg_criteria (P A : ℕ)
    (F : Fin P → Fin A → Fin 3 → ℝ) (c : Fin 3) : ℝ :=
  Real.sqrt (∑ a, (F_step_avg P A F a c) ^ 2)

/-- Embeds eval_uncert_E (src/libs/lib_criteria.py lines 114-175),
abstracting the predictor invocations into the families Epot and Etot
of raw predicted energies: returns the average and standard deviation
of the E_ref-shifted potential energies and the average of the
E_ref-shifted total energies. -/
noncomputable def eval_uncert_E (P : ℕ) (Epot Etot : Fin P → ℝ)
    (E_ref : ℝ) : ℝ × ℝ × ℝ :=
  (predAvg P (fun p => Epot p - E_ref),
   predStd P (fun p => Epot p - E_ref),
   predAvg P (fun p => Etot p - E_ref))

/-- np.average of a 3-component array. -/
noncomputable def avg3 (v : Fin 3 → ℝ) : ℝ :=
  (∑ c, v c) / 3

/-- np.ndarray.max of a 3-component array. -/
noncomputable def max3 (v : Fin 3 → ℝ) : ℝ :=
  max (max (v 0) (v 1)) (v 2)

/-- The filtered relative-uncertainty list of the force_max branch of
eval_uncert (src/libs/lib_criteria.py line 84): std/avg for the entries
whose avg exceeds 0.05, in component order. -/
noncomputable def relUncertList (favg fstd : Fin 3 → ℝ) : List ℝ :=
  ((List.finRange 3).filter (fun c => decide (0.05 < favg c))).map
    (fun c => fstd c / favg c)

/-- An entry of the 5-tuple returned by eval_uncert: either the literal
dashes placeholder string or a float. -/
inductive UVal where
  | dashes : UVal
  | val : ℝ → UVal

/-- Embeds eval_uncert (src/libs/lib_criteria.py lines 10-109): mode
dispatch over al_type, returning the 5-tuple (UncertAbs_E, UncertRel_E,
UncertAbs_F, UncertRel_F, Etot_step_avg).  sys.exit on an unrecognized
al_type is modelled as Except.error carrying the diagnostic; the
np.ndarray.max of an empty filtered array (a numpy ValueError) is also
modelled as Except.error. -/
noncomputable def eval_uncert (P A : ℕ) (al_type : String)
    (Epot Etot : Fin P → ℝ) (F : Fin P → Fin A → Fin 3 → ℝ)
    (E_ref : ℝ) : Except String (UVal × UVal × UVal × UVal × ℝ) :=
  if al_type = "energy" then
    let s := eval_uncert_E P Epot Etot E_ref
    Except.ok (UVal.val s.2.1, UVal.val (s.2.1 / s.1),
      UVal.dashes, UVal.dashes, s.2.2)
  else if al_type = "force" then
    let favg := F_step_norm_avg_criteria P A F
    let fstd := F_step_norm_std_criteria P A F
    Except.ok (UVal.dashes, UVal.dashes,
      UVal.val (avg3 fstd), UVal.val (avg3 (fun c => fstd c / favg c)),
      predAvg P (fun p => Etot p - E_ref))
  else if al_type = "force_max" then
    let favg := F_step_norm_avg_criteria P A F
    let fstd := F_step_norm_std_criteria P A F
    match (relUncertList favg fstd).max? with
    | none => Except.error
        "zero-size array to reduction operation maximum which has no identity"
    | some m => Except.ok (UVal.dashes, UVal.dashes,
        UVal.val (max3 fstd), UVal.val m,
        predAvg P (fun p => Etot p - E_ref))
  else if al_type = "EandFmax" ∨ al_type = "EorFmax" then
    let s := eval_uncert_E P Epot Etot E_ref
    let favg := F_step_norm_avg_criteria P A F
    let fstd := F_step_norm_std_criteria P A F
    match (relUncertList favg fstd).max? with
    | none => Except.error
        "zero-size array to reduction operation maximum which has no identity"
    | some m => Except.ok (UVal.val s.2.1, UVal.val (s.2.1 / s.1),
        UVal.val (max3 fstd), UVal.val m,
        predAvg P (fun p => Etot p - E_ref))
  else
    Except.error "You need to set al_type."

/-- Embeds the local-heating factor of cont_NVTLangevin_temp
(src/libs/lib_cont_nvtlangevin_temp.py lines 192-203): temp_ratio is
1.0 when the dispersion excess over the calibration mean is negative,
and exp(-uncert_ratio^2/2) otherwise, where uncert_ratio is the excess
divided by the calibration standard deviation. -/
noncomputable def local_temp_ratio (step_std_i cavg cstd : ℝ) : ℝ :=
  let uncert_ratio := (step_std_i - cavg) / cstd
  if step_std_i - cavg < 0 then 1.0
  else Real.exp ((-1 / 2) * uncert_ratio ^ 2)

/-- Embeds the temp_ratio assignment structure of the per-step body of
cont_NVTLangevin_temp (src/libs/lib_cont_nvtlangevin_temp.py lines
192-213): temp_ratio is assigned only in the force_max and energy_max
branches; for every other al_type the unconditional read at line 205
hits an unassigned local (Python NameError), modelled as none. -/
noncomputable def step_temp_ratio (al_type : String)
    (step_std_i Un_Abs_F_avg Un_Abs_F_std Un_Abs_E_avg Un_Abs_E_std : ℝ) :
    Option ℝ :=
  if al_type = "force_max" then
    some (local_temp_ratio step_std_i Un_Abs_F_avg Un_Abs_F_std)
  else if al_type = "energy_max" then
    some (local_temp_ratio step_std_i Un_Abs_E_avg Un_Abs_E_std)
  else none

/-- Configuration of the stepping loop of cont_NVTLangevin_temp that
its control flow depends on. -/
structure MDInputs where
  ntotal : ℕ
  calc_type : String
  nperiod : ℕ
  loginterval : ℕ
deriving DecidableEq

/-- The two loop counters of cont_NVTLangevin_temp. -/
structure MDState where
  MD_index : ℕ
  MD_step_index : ℕ
deriving DecidableEq

/-- Embeds the while condition of the stepping loop
(src/libs/lib_cont_nvtlangevin_temp.py line 159). -/
def md_loop_cond (inp : MDInputs) (s : MDState) : Bool :=
  decide (s.MD_index < inp.ntotal) ||
    ((inp.calc_type == "period") &&
      decide (s.MD_step_index < inp.nperiod * inp.loginterval))

/-- Embeds the effect of one iteration of the stepping loop on the two
counters (src/libs/lib_cont_nvtlangevin_temp.py lines 271-341):
MD_index is incremented exactly when the iteration is a logging step
((MD_step_index+1) % loginterval == 0) whose Bernoulli draw accepts;
MD_step_index is always incremented. -/
def md_step (inp : MDInputs) (accept : Bool) (s : MDState) : MDState :=
  { MD_index :=
      if (s.MD_step_index + 1) % inp.loginterval = 0 ∧ accept = true then
        s.MD_index + 1
      else s.MD_index,
    MD_step_index := s.MD_step_index + 1 }

/-- The trace of the stepping loop: the state after n iterations, where
the Bernoulli draws of the logging steps are supplied by the oracle
accept, indexed by the step count at which the draw happens.  Once the
while condition fails the state stays fixed. -/
def md_run (inp : MDInputs) (accept : ℕ → Bool) (s0 : MDState) :
    ℕ → MDState
  | 0 => s0
  | n + 1 =>
    let s := md_run inp accept s0 n
    if md_loop_cond inp s then md_step inp (accept s.MD_step_index) s else s

/-- C2: in force_max mode the force uncertainty sub-score of
get_criteria_prob is the hard band: exactly 1 when the absolute force
uncertainty lies strictly between 0.05 and 0.20 and exactly 0
otherwise, independent of any calibration baseline; in particular 0.10
gives 1 and 0.30 gives 0, and get_criteria_prob combines exactly this
sub-score (energy sub-score 1) with the canonical term. -/
theorem C2_force_max_band (U : ℝ) :
    (0.05 < U ∧ U < 0.20 → criteria_Uncert_Fmax U = 1) ∧
    (¬ (0.05 < U ∧ U < 0.20) → criteria_Uncert_Fmax U = 0) ∧
    criteria_Uncert_Fmax 0.10 = 1 ∧
    criteria_Uncert_Fmax 0.30 = 0 ∧
    ∀ erf ut kB N T Etot cEa cEs uAE a1 a2 uRE a3 a4 a5 a6 uRF a7 a8,
      get_criteria_prob erf "force_max" ut kB N T Etot cEa cEs
          uAE a1 a2 uRE a3 a4 U a5 a6 uRF a7 a8 =
        some (1 * criteria_Uncert_Fmax U *
          criteria_Prob_canonical kB N T Etot cEa cEs) := by
  refine ⟨fun h => if_pos h, fun h => if_neg h, ?_, ?_, ?_⟩
  · rw [criteria_Uncert_Fmax, if_pos (by norm_num)]
  · rw [criteria_Uncert_Fmax, if_neg (by norm_num)]
  · intro erf ut kB N T Etot cEa cEs uAE a1 a2 uRE a3 a4 a5 a6 uRF a7 a8
    simp [get_criteria_prob, criteria_sub_scores]

/-- C2 witness: the band evaluated at the two scenario points. -/
theorem C2_force_max_band_witness :
    criteria_Uncert_Fmax 0.10 = 1 ∧ criteria_Uncert_Fmax 0.30 = 0 :=
  ⟨(C2_force_max_band 0.10).1 (by norm_num),
   (C2_force_max_band 0.30).2.2.2.1⟩

/-- C4: get_criteria_uncert applied to uncert_type "absolute" with
observed uncertainty 0.1, baseline average 0.1 and baseline standard
deviation 0.01 yields 0.5*(1+erf(-0.2661/sqrt(0.2))); in general it
applies the shifted-and-scaled Gaussian CDF formula to whichever of the
absolute/relative inputs uncert_type selects. -/
theorem C4_get_criteria_uncert_formula (erf : ℝ → ℝ) :
    (∀ UR ar sr, get_criteria_uncert erf "absolute" 0.1 0.1 0.01 UR ar sr =
      some (0.5 * (1 + erf (-0.2661 / Real.sqrt 0.2)))) ∧
    (∀ U a s UR ar sr, get_criteria_uncert erf "absolute" U a s UR ar sr =
      some (0.5 * (1 + erf (((U - a) - 0.2661 * s) /
        (s * Real.sqrt (2 * 0.1)))))) ∧
    (∀ UA aa sa U a s, get_criteria_uncert erf "relative" UA aa sa U a s =
      some (0.5 * (1 + erf (((U - a) - 0.2661 * s) /
        (s * Real.sqrt (2 * 0.1)))))) := by
  have habs : ∀ U a s UR ar sr, get_criteria_uncert erf "absolute" U a s UR ar sr =
      some (0.5 * (1 + erf (((U - a) - 0.2661 * s) /
        (s * Real.sqrt (2 * 0.1))))) := by
    intro U a s UR ar sr
    rw [get_criteria_uncert, if_neg (by decide), if_pos rfl]
  refine ⟨fun UR ar sr => ?_, habs, fun UA aa sa U a s => ?_⟩
  · rw [habs]
    have h02 : Real.sqrt (2 * 0.1) = Real.sqrt 0.2 := by norm_num
    have hpos : (0 : ℝ) < Real.sqrt 0.2 := Real.sqrt_pos.mpr (by norm_num)
    have harg : ((0.1 - 0.1 : ℝ) - 0.2661 * 0.01) / (0.01 * Real.sqrt 0.2) =
        -0.2661 / Real.sqrt 0.2 := by
      rw [div_eq_div_iff (by positivity) hpos.ne']
      ring
    rw [h02, harg]
  · rw [get_criteria_uncert, if_pos rfl]

/-- C7: the local heating factor of the integrator equals 1 whenever
the dispersion excess over the baseline mean is negative, equals 1 at
uncert_ratio = 0, equals exp(-uncert_ratio^2/2) for nonnegative excess,
and tends to 0 as uncert_ratio tends to infinity. -/
theorem C7_local_heating_factor (d a s : ℝ) :
    (d - a < 0 → local_temp_ratio d a s = 1) ∧
    (0 < s → d = a → local_temp_ratio d a s = 1) ∧
    (0 ≤ d - a →
      local_temp_ratio d a s = Real.exp (-((d - a) / s) ^ 2 / 2)) ∧
    (0 < s → Filter.Tendsto (fun r => local_temp_ratio (a + r * s) a s)
      Filter.atTop (nhds 0)) := by
  have hpos : ∀ e b t : ℝ, 0 ≤ e - b →
      local_temp_ratio e b t = Real.exp (-((e - b) / t) ^ 2 / 2) := by
    intro e b t h
    rw [local_temp_ratio, if_neg (not_lt.mpr h)]
    congr 1
    ring
  refine ⟨fun h => by rw [local_temp_ratio, if_pos h]; norm_num,
    fun hs hda => ?_, hpos d a s, fun hs => ?_⟩
  · subst hda
    rw [hpos d d s (by norm_num)]
    simp
  · have hsq : Filter.Tendsto (fun r : ℝ => -(r ^ 2 / 2)) Filter.atTop
        Filter.atBot :=
      Filter.tendsto_neg_atTop_atBot.comp
        ((Filter.tendsto_pow_atTop (two_ne_zero)).atTop_div_const (by norm_num))
    have hexp : Filter.Tendsto (fun r : ℝ => Real.exp (-(r ^ 2 / 2)))
        Filter.atTop (nhds 0) := Real.tendsto_exp_atBot.comp hsq
    refine hexp.congr' ?_
    filter_upwards [Filter.eventually_ge_atTop (0 : ℝ)] with r hr
    have h1 : 0 ≤ a + r * s - a := by nlinarith
    rw [hpos (a + r * s) a s h1]
    have h2 : (a + r * s - a) / s = r := by
      field_simp
    rw [h2]
    congr 1
    ring

/-- C7 witness: the heating factor at concrete inputs, via the theorem:
negative excess gives 1, zero ratio gives 1, and the tail limit holds
for baseline mean 0 and standard deviation 1. -/
theorem C7_local_heating_factor_witness :
    local_temp_ratio 0 1 1 = 1 ∧ local_temp_ratio 1 1 1 = 1 ∧
    Filter.Tendsto (fun r => local_temp_ratio (0 + r * 1) 0 1)
      Filter.atTop (nhds 0) :=
  ⟨(C7_local_heating_factor 0 1 1).1 (by norm_num),
   (C7_local_heating_factor 1 1 1).2.1 (by norm_num) rfl,
   (C7_local_heating_factor 0 0 1).2.2.2 (by norm_num)⟩

/-- C10: the per-step body of cont_NVTLangevin_temp assigns temp_ratio
only in the force_max and energy_max branches; for any other al_type
the unconditional read of temp_ratio hits an unassigned local, so the
step fails instead of completing. -/
theorem C10_temp_ratio_precondition (al_type : String)
    (x fa fs ea es : ℝ) :
    (step_temp_ratio al_type x fa fs ea es).isSome = true ↔
      al_type = "force_max" ∨ al_type = "energy_max" := by
  rw [step_temp_ratio]
  split_ifs with h1 h2
  · simp [h1]
  · simp [h2]
  · simp [h1, h2]

/-- C5: the canonical-ensemble sub-score of get_criteria_prob is the
normalized Boltzmann factor raised to the extrapolated exponent and
capped at 1 (equivalently: the minimum of 1 and that power); it equals
exactly 0.2 when the total energy sits one calibration standard
deviation above the calibration average, and exactly 1 at the average
itself. -/
theorem C5_canonical_term (kB N T cEa cEs : ℝ)
    (hkT : 0 < kB * T) (hN : 0 < N) (hs : 0 < cEs) :
    criteria_Prob_canonical kB N T (cEa + cEs) cEa cEs = 0.2 ∧
    criteria_Prob_canonical kB N T cEa cEa cEs = 1 ∧
    (∀ Etot, criteria_Prob_canonical kB N T Etot cEa cEs =
      min 1 ((Real.exp ((-1) * (Etot / N) / (kB * T)) /
              Real.exp ((-1) * (cEa / N) / (kB * T))) ^
        (Real.log 0.2 /
          Real.log (Real.exp ((-1) * ((cEa + cEs) / N) / (kB * T)) /
            Real.exp ((-1) * (cEa / N) / (kB * T)))))) := by
  have hd : (-1) * ((cEa + cEs) / N) / (kB * T) - (-1) * (cEa / N) / (kB * T) =
      -(cEs / (N * (kB * T))) := by
    field_simp
  have hdne : (-1) * ((cEa + cEs) / N) / (kB * T) - (-1) * (cEa / N) / (kB * T) ≠ 0 := by
    rw [hd]
    have : 0 < cEs / (N * (kB * T)) := div_pos hs (mul_pos hN hkT)
    intro hcontra
    simp only [neg_eq_zero] at hcontra
    exact (ne_of_gt this) hcontra
  refine ⟨?_, ?_, ?_⟩
  · simp only [criteria_Prob_canonical, ← Real.exp_sub, Real.log_exp]
    rw [Real.rpow_def_of_pos (Real.exp_pos _), Real.log_exp,
      mul_div_cancel₀ _ hdne, Real.exp_log (by norm_num : (0 : ℝ) < 0.2)]
    norm_num
  · simp only [criteria_Prob_canonical, ← Real.exp_sub, sub_self,
      Real.exp_zero, Real.one_rpow]
    norm_num
  · intro Etot
    simp only [criteria_Prob_canonical]
    rcases le_or_lt
      ((Real.exp ((-1) * (Etot / N) / (kB * T)) /
          Real.exp ((-1) * (cEa / N) / (kB * T))) ^
        (Real.log 0.2 /
          Real.log (Real.exp ((-1) * ((cEa + cEs) / N) / (kB * T)) /
            Real.exp ((-1) * (cEa / N) / (kB * T))))) 1 with h | h
    · rw [if_neg (not_lt.mpr h), min_eq_right h]
    · rw [if_pos h, min_eq_left h.le]

/-- C5 witness: the canonical term at unit physical constants with
calibration average 0 and standard deviation 1. -/
theorem C5_canonical_term_witness :
    criteria_Prob_canonical 1 1 1 (0 + 1) 0 1 = 0.2 ∧
    criteria_Prob_canonical 1 1 1 0 0 1 = 1 :=
  ⟨(C5_canonical_term 1 1 1 0 1 (by norm_num) (by norm_num) (by norm_num)).1,
   (C5_canonical_term 1 1 1 0 1 (by norm_num) (by norm_num) (by norm_num)).2.1⟩

/-- C3: get_criteria_prob combines the sub-scores with the complement
formula 1-(1-P_E)*(1-P_F)*P_canonical exactly for al_type EorFmax and
with the plain product P_E*P_F*P_canonical for every other al_type; a
sub-score not selected by the mode is 1, and the sub-scores of EandFmax
are identical to those of EorFmax, so EandFmax goes through the plain
product path with the same sub-scores. -/
theorem C3_combination (erf : ℝ → ℝ) (ut : String)
    (kB N T Etot cEa cEs uAE a1 a2 uRE a3 a4 uAF a5 a6 uRF a7 a8 : ℝ) :
    (∀ p, criteria_sub_scores erf "EorFmax" ut
        uAE a1 a2 uRE a3 a4 uAF a5 a6 uRF a7 a8 = some p →
      get_criteria_prob erf "EorFmax" ut kB N T Etot cEa cEs
          uAE a1 a2 uRE a3 a4 uAF a5 a6 uRF a7 a8 =
        some (1 - (1 - p.1) * (1 - p.2) *
          criteria_Prob_canonical kB N T Etot cEa cEs)) ∧
    (∀ al_type, al_type ≠ "EorFmax" →
      ∀ p, criteria_sub_scores erf al_type ut
          uAE a1 a2 uRE a3 a4 uAF a5 a6 uRF a7 a8 = some p →
        get_criteria_prob erf al_type ut kB N T Etot cEa cEs
            uAE a1 a2 uRE a3 a4 uAF a5 a6 uRF a7 a8 =
          some (p.1 * p.2 * criteria_Prob_canonical kB N T Etot cEa cEs)) ∧
    (∀ p, criteria_sub_scores erf "energy" ut
        uAE a1 a2 uRE a3 a4 uAF a5 a6 uRF a7 a8 = some p → p.2 = 1) ∧
    (∀ p, criteria_sub_scores erf "force" ut
        uAE a1 a2 uRE a3 a4 uAF a5 a6 uRF a7 a8 = some p → p.1 = 1) ∧
    (∀ p, criteria_sub_scores erf "force_max" ut
        uAE a1 a2 uRE a3 a4 uAF a5 a6 uRF a7 a8 = some p → p.1 = 1) ∧
    criteria_sub_scores erf "EandFmax" ut
        uAE a1 a2 uRE a3 a4 uAF a5 a6 uRF a7 a8 =
      criteria_sub_scores erf "EorFmax" ut
        uAE a1 a2 uRE a3 a4 uAF a5 a6 uRF a7 a8 := by
  refine ⟨?_, ?_, ?_, ?_, ?_, ?_⟩
  · intro p hp
    rw [get_criteria_prob, hp]
    simp
  · intro al_type hal p hp
    rw [get_criteria_prob, hp]
    simp [hal]
  · intro p hp
    simp only [criteria_sub_scores, if_pos rfl] at hp
    rcases Option.map_eq_some'.mp hp with ⟨v, _, hv⟩
    rw [← hv]
  · intro p hp
    rw [criteria_sub_scores, if_neg (by decide), if_pos rfl] at hp
    rcases Option.map_eq_some'.mp hp with ⟨v, _, hv⟩
    rw [← hv]
  · intro p hp
    rw [criteria_sub_scores, if_neg (by decide), if_neg (by decide),
      if_pos rfl] at hp
    rcases Option.some_inj.mp hp with rfl
    rfl
  · have hL : criteria_sub_scores erf "EandFmax" ut
        uAE a1 a2 uRE a3 a4 uAF a5 a6 uRF a7 a8 =
        (get_criteria_uncert erf ut uAE a1 a2 uRE a3 a4).map
          (fun pE => (pE, criteria_Uncert_Fmax uAF)) := by
      rw [criteria_sub_scores, if_neg (by decide), if_neg (by decide),
        if_neg (by decide), if_pos (Or.inl rfl)]
    have hR : criteria_sub_scores erf "EorFmax" ut
        uAE a1 a2 uRE a3 a4 uAF a5 a6 uRF a7 a8 =
        (get_criteria_uncert erf ut uAE a1 a2 uRE a3 a4).map
          (fun pE => (pE, criteria_Uncert_Fmax uAF)) := by
      rw [criteria_sub_scores, if_neg (by decide), if_neg (by decide),
        if_neg (by decide), if_pos (Or.inr rfl)]
    exact hL.trans hR.symm

/-- C3 witness: the combination at concrete inputs, with erf the zero
function so the energy sub-score is 0.5, through the EorFmax branch of
the theorem. -/
theorem C3_combination_witness :
    get_criteria_prob (fun _ => 0) "EorFmax" "absolute" 1 1 1 0 0 1
        0 0 1 0 0 1 0.1 0 1 0 0 1 =
      some (1 - (1 - 0.5) * (1 - criteria_Uncert_Fmax 0.1) *
        criteria_Prob_canonical 1 1 1 0 0 1) :=
  (C3_combination (fun _ => 0) "absolute" 1 1 1 0 0 1 0 0 1 0 0 1 0.1 0 1 0 0 1).1
    ((0.5 : ℝ), criteria_Uncert_Fmax 0.1)
    (by
      rw [criteria_sub_scores, if_neg (by decide), if_neg (by decide),
        if_neg (by decide), if_pos (Or.inr rfl), get_criteria_uncert,
        if_neg (by decide), if_pos rfl]
      norm_num)

/-- Any value returned by get_criteria_uncert lies in [0,1], given
that erf has range within [-1,1]. -/
theorem get_criteria_uncert_mem_unit (erf : ℝ → ℝ)
    (herf : ∀ x, -1 ≤ erf x ∧ erf x ≤ 1) (ut : String)
    (hu : ut = "absolute" ∨ ut = "relative") (a b c d e f : ℝ) :
    ∃ v, get_criteria_uncert erf ut a b c d e f = some v ∧ 0 ≤ v ∧ v ≤ 1 := by
  rcases hu with h | h <;> subst h
  · refine ⟨_, by rw [get_criteria_uncert, if_neg (by decide), if_pos rfl], ?_, ?_⟩
    · rcases herf (((a - b) - 0.2661 * c) / (c * Real.sqrt (2 * 0.1))) with ⟨h1, h2⟩
      linarith
    · rcases herf (((a - b) - 0.2661 * c) / (c * Real.sqrt (2 * 0.1))) with ⟨h1, h2⟩
      linarith
  · refine ⟨_, by rw [get_criteria_uncert, if_pos rfl], ?_, ?_⟩
    · rcases herf (((d - e) - 0.2661 * f) / (f * Real.sqrt (2 * 0.1))) with ⟨h1, h2⟩
      linarith
    · rcases herf (((d - e) - 0.2661 * f) / (f * Real.sqrt (2 * 0.1))) with ⟨h1, h2⟩
      linarith

/-- The band sub-score of force_max mode lies in [0,1]. -/
theorem criteria_Uncert_Fmax_mem_unit (u : ℝ) :
    0 ≤ criteria_Uncert_Fmax u ∧ criteria_Uncert_Fmax u ≤ 1 := by
  rw [criteria_Uncert_Fmax]
  split_ifs <;> norm_num

/-- The canonical-ensemble sub-score is always positive and at most 1:
the normalized Boltzmann ratio is positive, a positive real to a real
power is positive, and the final cap enforces the upper bound. -/
theorem criteria_Prob_canonical_mem_unit (kB N T Etot cEa cEs : ℝ) :
    0 < criteria_Prob_canonical kB N T Etot cEa cEs ∧
      criteria_Prob_canonical kB N T Etot cEa cEs ≤ 1 := by
  rw [criteria_Prob_canonical]
  have hbase : 0 < Real.exp ((-1) * (Etot / N) / (kB * T)) /
      Real.exp ((-1) * (cEa / N) / (kB * T)) :=
    div_pos (Real.exp_pos _) (Real.exp_pos _)
  have hpow := Real.rpow_pos_of_pos hbase
    (Real.log 0.2 /
      Real.log (Real.exp ((-1) * ((cEa + cEs) / N) / (kB * T)) /
        Real.exp ((-1) * (cEa / N) / (kB * T))))
  split_ifs with h
  · exact ⟨one_pos, le_refl 1⟩
  · exact ⟨hpow, not_lt.mp h⟩

/-- The pair of mode sub-scores always exists and lies in [0,1]², for
a recognized uncert_type and erf of range within [-1,1]. -/
theorem criteria_sub_scores_mem_unit (erf : ℝ → ℝ)
    (herf : ∀ x, -1 ≤ erf x ∧ erf x ≤ 1) (al ut : String)
    (hu : ut = "absolute" ∨ ut = "relative")
    (uAE a1 a2 uRE a3 a4 uAF a5 a6 uRF a7 a8 : ℝ) :
    ∃ pE pF, criteria_sub_scores erf al ut
        uAE a1 a2 uRE a3 a4 uAF a5 a6 uRF a7 a8 = some (pE, pF) ∧
      0 ≤ pE ∧ pE ≤ 1 ∧ 0 ≤ pF ∧ pF ≤ 1 := by
  rw [criteria_sub_scores]
  split_ifs with h1 h2 h3 h4
  · rcases get_criteria_uncert_mem_unit erf herf ut hu uAE a1 a2 uRE a3 a4 with
      ⟨v, hv, hv0, hv1⟩
    exact ⟨v, 1, by rw [hv]; rfl, hv0, hv1, by norm_num, by norm_num⟩
  · rcases get_criteria_uncert_mem_unit erf herf ut hu uAF a5 a6 uRF a7 a8 with
      ⟨v, hv, hv0, hv1⟩
    exact ⟨1, v, by rw [hv]; rfl, by norm_num, by norm_num, hv0, hv1⟩
  · rcases criteria_Uncert_Fmax_mem_unit uAF with ⟨hf0, hf1⟩
    exact ⟨1, criteria_Uncert_Fmax uAF, rfl, by norm_num, by norm_num, hf0, hf1⟩
  · rcases get_criteria_uncert_mem_unit erf herf ut hu uAE a1 a2 uRE a3 a4 with
      ⟨v, hv, hv0, hv1⟩
    rcases criteria_Uncert_Fmax_mem_unit uAF with ⟨hf0, hf1⟩
    exact ⟨v, criteria_Uncert_Fmax uAF, by rw [hv]; rfl, hv0, hv1, hf0, hf1⟩
  · exact ⟨1, 1, rfl, by norm_num, by norm_num, by norm_num, by norm_num⟩

/-- The product of three values of [0,1] and the complement-product
combination both lie in [0,1]. -/
theorem unit_interval_combinations {x y z : ℝ}
    (hx0 : 0 ≤ x) (hx1 : x ≤ 1) (hy0 : 0 ≤ y) (hy1 : y ≤ 1)
    (hz0 : 0 ≤ z) (hz1 : z ≤ 1) :
    (0 ≤ x * y * z ∧ x * y * z ≤ 1) ∧
      (0 ≤ 1 - (1 - x) * (1 - y) * z ∧ 1 - (1 - x) * (1 - y) * z ≤ 1) := by
  have hxy : 0 ≤ x * y := mul_nonneg hx0 hy0
  have hxyz : 0 ≤ x * y * z := mul_nonneg hxy hz0
  have hxy1 : x * y ≤ 1 := mul_le_one₀ hx1 hy0 hy1
  have hxyz1 : x * y * z ≤ 1 := mul_le_one₀ hxy1 hz0 hz1
  have hcx0 : 0 ≤ 1 - x := by linarith
  have hcx1 : 1 - x ≤ 1 := by linarith
  have hcy0 : 0 ≤ 1 - y := by linarith
  have hcy1 : 1 - y ≤ 1 := by linarith
  have hq0 : 0 ≤ (1 - x) * (1 - y) * z :=
    mul_nonneg (mul_nonneg hcx0 hcy0) hz0
  have hq1 : (1 - x) * (1 - y) * z ≤ 1 :=
    mul_le_one₀ (mul_le_one₀ hcx1 hcy0 hcy1) hz0 hz1
  exact ⟨⟨hxyz, hxyz1⟩, ⟨by linarith, by linarith⟩⟩

/-- C1: for every al_type, a recognized uncert_type, and all real
inputs with positive baseline standard deviations (and physical
constants positive), get_criteria_prob returns a probability and that
probability lies in [0,1]; in particular the cap on the canonical
sub-score keeps the result at most 1 even when the canonical
intermediate value exceeds 1. -/
theorem C1_prob_in_unit_interval (erf : ℝ → ℝ)
    (herf : ∀ x, -1 ≤ erf x ∧ erf x ≤ 1) (al ut : String)
    (hu : ut = "absolute" ∨ ut = "relative")
    (kB N T Etot cEa cEs uAE a1 a2 uRE a3 a4 uAF a5 a6 uRF a7 a8 : ℝ)
    (hkT : 0 < kB * T) (hN : 0 < N)
    (hstdE : 0 < cEs) (hstdAE : 0 < a2) (hstdRE : 0 < a4)
    (hstdAF : 0 < a6) (hstdRF : 0 < a8) :
    (get_criteria_prob erf al ut kB N T Etot cEa cEs
        uAE a1 a2 uRE a3 a4 uAF a5 a6 uRF a7 a8).isSome = true ∧
    ∀ p, get_criteria_prob erf al ut kB N T Etot cEa cEs
        uAE a1 a2 uRE a3 a4 uAF a5 a6 uRF a7 a8 = some p →
      0 ≤ p ∧ p ≤ 1 := by
  rcases criteria_sub_scores_mem_unit erf herf al ut hu
    uAE a1 a2 uRE a3 a4 uAF a5 a6 uRF a7 a8 with
    ⟨pE, pF, hsub, hE0, hE1, hF0, hF1⟩
  rcases criteria_Prob_canonical_mem_unit kB N T Etot cEa cEs with ⟨hc0, hc1⟩
  rcases unit_interval_combinations hE0 hE1 hF0 hF1 hc0.le hc1 with
    ⟨⟨hm0, hm1⟩, ⟨ho0, ho1⟩⟩
  rw [get_criteria_prob, hsub]
  constructor
  · rfl
  · intro p hp
    rw [Option.map_some'] at hp
    rcases Option.some_inj.mp hp with rfl
    dsimp only
    split_ifs
    · exact ⟨ho0, ho1⟩
    · exact ⟨hm0, hm1⟩

/-- C1 witness: a concrete instance in energy mode with the zero error
function, where the returned probability is 1/2. -/
theorem C1_prob_in_unit_interval_witness :
    0 ≤ (1 / 2 : ℝ) ∧ (1 / 2 : ℝ) ≤ 1 :=
  (C1_prob_in_unit_interval (fun _ => 0) (fun _ => by norm_num)
      "energy" "absolute" (Or.inl rfl) 1 1 1 0 0 1 0 0 1 0 0 1 0 0 1 0 0 1
      (by norm_num) (by norm_num) (by norm_num) (by norm_num) (by norm_num)
      (by norm_num) (by norm_num)).2 (1 / 2)
    (by
      rw [get_criteria_prob, criteria_sub_scores, if_pos rfl,
        get_criteria_uncert, if_neg (by decide), if_pos rfl]
      rw [Option.map_some', Option.map_some']
      rw [criteria_Prob_canonical]
      norm_num [Real.one_rpow]
      decide)

/-- C9 counterexample: get_criteria_prob on the unrecognized al_type
"unset" does NOT terminate the process: it returns the probability 1
(sub-scores defaulted to 1, canonical term 1 at the calibration
average), refuting the claim that every mode-dispatching operation
fails fatally on an unrecognized mode. -/
theorem C9_counterexample :
    get_criteria_prob (fun _ => 0) "unset" "absolute" 1 1 1 0 0 1
        0 0 1 0 0 1 0 0 1 0 0 1 = some 1 := by
  rw [get_criteria_prob, criteria_sub_scores, if_neg (by decide),
    if_neg (by decide), if_neg (by decide), if_neg (by decide),
    Option.map_some']
  rw [criteria_Prob_canonical]
  norm_num [Real.one_rpow]

/-- C9 amended: on an al_type outside the recognized set, eval_uncert
exits fatally with the diagnostic "You need to set al_type.", while
get_criteria_prob only prints its diagnostic and continues, returning
the canonical-ensemble probability with both sub-scores defaulted
to 1. -/
theorem C9_unrecognized_mode (al : String)
    (hal : al ≠ "energy" ∧ al ≠ "force" ∧ al ≠ "force_max" ∧
      al ≠ "EandFmax" ∧ al ≠ "EorFmax") :
    (∀ (P A : ℕ) (Epot Etot : Fin P → ℝ) (F : Fin P → Fin A → Fin 3 → ℝ)
        (E_ref : ℝ),
      eval_uncert P A al Epot Etot F E_ref =
        Except.error "You need to set al_type.") ∧
    (∀ (erf : ℝ → ℝ) (ut : String)
        (kB N T Etot cEa cEs uAE a1 a2 uRE a3 a4 uAF a5 a6 uRF a7 a8 : ℝ),
      get_criteria_prob erf al ut kB N T Etot cEa cEs
          uAE a1 a2 uRE a3 a4 uAF a5 a6 uRF a7 a8 =
        some (criteria_Prob_canonical kB N T Etot cEa cEs)) := by
  rcases hal with ⟨h1, h2, h3, h4, h5⟩
  constructor
  · intro P A Epot Etot F E_ref
    rw [eval_uncert, if_neg h1, if_neg h2, if_neg h3,
      if_neg (by rw [not_or]; exact ⟨h4, h5⟩)]
  · intro erf ut kB N T Etot cEa cEs uAE a1 a2 uRE a3 a4 uAF a5 a6 uRF a7 a8
    rw [get_criteria_prob, criteria_sub_scores, if_neg h1, if_neg h2,
      if_neg h3, if_neg (by rw [not_or]; exact ⟨h4, h5⟩), Option.map_some']
    rw [if_neg h5]
    norm_num

/-- C9 witness: the amended behavior at the concrete al_type "unset". -/
theorem C9_unrecognized_mode_witness :
    eval_uncert 1 1 "unset" (fun _ => 0) (fun _ => 0) (fun _ _ _ => 0) 0 =
      Except.error "You need to set al_type." :=
  (C9_unrecognized_mode "unset"
      ⟨by decide, by decide, by decide, by decide, by decide⟩).1
    1 1 (fun _ => 0) (fun _ => 0) (fun _ _ _ => 0) 0

/-- C8 counterexample: in the periodic sampling variant the loop
condition stays true after the accepted count has reached the
configured total, so MD_index exceeds ntotal: with ntotal = 0,
calc_type "period", nperiod = 1, loginterval = 1 and an accepting
draw, one iteration (whose entry condition holds) raises MD_index
to 1 > 0. -/
theorem C8_counterexample :
    md_loop_cond ⟨0, "period", 1, 1⟩ ⟨0, 0⟩ = true ∧
    (md_run ⟨0, "period", 1, 1⟩ (fun _ => true) ⟨0, 0⟩ 1).MD_index = 1 ∧
    (1 : ℕ) > (0 : ℕ) := by
  refine ⟨rfl, ?_, by norm_num⟩
  rw [md_run, md_run]
  rfl

/-- C8 amended: along every trace of the stepping loop, MD_index never
decreases; on an iteration whose entry condition holds, MD_step_index
increases by exactly 1, and MD_index increases by exactly 1 precisely
on an accepted logging interval and is otherwise unchanged; and in the
non-periodic variant (calc_type different from "period"), MD_index
never exceeds ntotal when it starts at most ntotal. -/
theorem C8_loop_counters (inp : MDInputs) (accept : ℕ → Bool)
    (s0 : MDState) (n : ℕ) :
    ((md_run inp accept s0 n).MD_index ≤
      (md_run inp accept s0 (n + 1)).MD_index) ∧
    (md_loop_cond inp (md_run inp accept s0 n) = true →
      ((md_run inp accept s0 (n + 1)).MD_step_index =
          (md_run inp accept s0 n).MD_step_index + 1) ∧
      ((md_run inp accept s0 (n + 1)).MD_index =
          (md_run inp accept s0 n).MD_index + 1 ↔
        ((md_run inp accept s0 n).MD_step_index + 1) % inp.loginterval = 0 ∧
          accept (md_run inp accept s0 n).MD_step_index = true) ∧
      ((md_run inp accept s0 (n + 1)).MD_index =
          (md_run inp accept s0 n).MD_index ∨
        (md_run inp accept s0 (n + 1)).MD_index =
          (md_run inp accept s0 n).MD_index + 1)) ∧
    (inp.calc_type ≠ "period" → s0.MD_index ≤ inp.ntotal →
      (md_run inp accept s0 n).MD_index ≤ inp.ntotal) := by
  refine ⟨?_, ?_, ?_⟩
  · rw [md_run]
    split_ifs with h
    · rw [md_step]
      dsimp only
      split_ifs <;> omega
    · exact le_refl _
  · intro h
    rw [md_run]
    rw [if_pos h, md_step]
    refine ⟨rfl, ?_, ?_⟩
    · dsimp only
      split_ifs with hacc
      · simp [hacc]
      · rw [not_and_or] at hacc
        constructor
        · intro habs
          omega
        · intro habs
          rcases hacc with hacc | hacc <;> exact absurd (by tauto) hacc
    · dsimp only
      split_ifs <;> omega
  · intro hcalc h0
    induction n with
    | zero => exact h0
    | succ m ih =>
      rw [md_run]
      split_ifs with h
      · have hbeq : (inp.calc_type == "period") = false :=
          beq_eq_false_iff_ne.mpr hcalc
        rw [md_loop_cond, hbeq, Bool.false_and, Bool.or_false,
          decide_eq_true_eq] at h
        rw [md_step]
        dsimp only
        split_ifs <;> omega
      · exact ih

/-- C8 witness: the amended invariants on a concrete non-periodic
trace with ntotal = 2, loginterval = 1, an always-accepting oracle and
one executed iteration. -/
theorem C8_loop_counters_witness :
    (md_run ⟨2, "auto", 0, 1⟩ (fun _ => true) ⟨0, 0⟩ 1).MD_step_index =
      (md_run ⟨2, "auto", 0, 1⟩ (fun _ => true) ⟨0, 0⟩ 0).MD_step_index + 1 ∧
    (md_run ⟨2, "auto", 0, 1⟩ (fun _ => true) ⟨0, 0⟩ 1).MD_index ≤ 2 :=
  ⟨((C8_loop_counters ⟨2, "auto", 0, 1⟩ (fun _ => true) ⟨0, 0⟩ 0).2.1
      (by decide)).1,
   (C8_loop_counters ⟨2, "auto", 0, 1⟩ (fun _ => true) ⟨0, 0⟩ 1).2.2
     (by decide) (by decide)⟩

/-- The scenario forces of the spec: 2 predictors, 1 atom, predictor 0
predicts force (1,0,0) and predictor 1 predicts (-1,0,0). -/
noncomputable def scenarioF : Fin 2 → Fin 1 → Fin 3 → ℝ :=
  fun p _ c =>
    if p = 0 then (if c = 0 then 1 else 0)
    else (if c = 0 then -1 else 0)

/-- A second concrete input: 2 predictors, 1 atom, forces (1,1,0) and
(-1,-1,0), on which the two dispersion computations disagree in value,
not only in indexing. -/
noncomputable def scenarioF2 : Fin 2 → Fin 1 → Fin 3 → ℝ :=
  fun p _ c =>
    if p = 0 then (if c = 2 then 0 else 1)
    else (if c = 2 then 0 else -1)

theorem sqrtsq_pair (x y : ℝ) (hx : 0 ≤ x) (hy : 0 ≤ y) :
    Real.sqrt ((Real.sqrt x ^ 2 + Real.sqrt y ^ 2) / 2) =
      Real.sqrt ((x + y) / 2) := by
  rw [Real.sq_sqrt hx, Real.sq_sqrt hy]

theorem avgF1 : ∀ c, F_step_avg 2 1 scenarioF 0 c = 0 := by
  intro c
  fin_cases c <;> simp [F_step_avg, scenarioF, Fin.sum_univ_two]

theorem avgF2 : ∀ c, F_step_avg 2 1 scenarioF2 0 c = 0 := by
  intro c
  fin_cases c <;> simp [F_step_avg, scenarioF2, Fin.sum_univ_two]

theorem innerF1 : ∀ p : Fin 2,
    (∑ c, (scenarioF p 0 c - F_step_avg 2 1 scenarioF 0 c) ^ 2) = 1 := by
  intro p
  fin_cases p <;>
    simp [avgF1, scenarioF, Fin.sum_univ_three]

theorem innerF2 : ∀ p : Fin 2,
    (∑ c, (scenarioF2 p 0 c - F_step_avg 2 1 scenarioF2 0 c) ^ 2) = 2 := by
  intro p
  fin_cases p <;>
    simp [avgF2, scenarioF2, Fin.sum_univ_three] <;> norm_num


theorem tempF1 : F_step_norm_std_temp 2 1 scenarioF 0 = 1 := by
  rw [F_step_norm_std_temp, Fin.sum_univ_two, innerF1 0, innerF1 1]
  rw [show ((2:ℕ):ℝ) = 2 from by norm_num]
  rw [sqrtsq_pair 1 1 (by norm_num) (by norm_num)]
  rw [show ((1:ℝ) + 1) / 2 = 1 by norm_num, Real.sqrt_one]

theorem tempF2 : F_step_norm_std_temp 2 1 scenarioF2 0 = Real.sqrt 2 := by
  rw [F_step_norm_std_temp, Fin.sum_univ_two, innerF2 0, innerF2 1]
  rw [show ((2:ℕ):ℝ) = 2 from by norm_num]
  rw [sqrtsq_pair 2 2 (by norm_num) (by norm_num)]
  rw [show ((2:ℝ) + 2) / 2 = 2 by norm_num]

theorem innerCritF1 : ∀ (p : Fin 2) (c : Fin 3),
    (∑ a, (scenarioF p a c - F_step_avg 2 1 scenarioF a c) ^ 2) =
      if c = 0 then 1 else 0 := by
  intro p c
  fin_cases p <;> fin_cases c <;>
    simp [avgF1, scenarioF, Fin.sum_univ_one]

theorem critF1_0 : F_step_norm_std_criteria 2 1 scenarioF 0 = 1 := by
  rw [F_step_norm_std_criteria, Fin.sum_univ_two, innerCritF1 0 0,
    innerCritF1 1 0, if_pos rfl]
  rw [show ((2:ℕ):ℝ) = 2 from by norm_num]
  rw [sqrtsq_pair 1 1 (by norm_num) (by norm_num)]
  rw [show ((1:ℝ) + 1) / 2 = 1 by norm_num, Real.sqrt_one]

theorem critF1_1 : F_step_norm_std_criteria 2 1 scenarioF 1 = 0 := by
  rw [F_step_norm_std_criteria, Fin.sum_univ_two, innerCritF1 0 1,
    innerCritF1 1 1, if_neg (by decide)]
  simp

theorem innerCritF2 : ∀ (p : Fin 2) (c : Fin 3),
    (∑ a, (scenarioF2 p a c - F_step_avg 2 1 scenarioF2 a c) ^ 2) =
      if c = 2 then 0 else 1 := by
  intro p c
  fin_cases p <;> fin_cases c <;>
    simp [avgF2, scenarioF2, Fin.sum_univ_one]

theorem critF2_c : ∀ c : Fin 3,
    F_step_norm_std_criteria 2 1 scenarioF2 c = if c = 2 then 0 else 1 := by
  intro c
  rw [F_step_norm_std_criteria, Fin.sum_univ_two, innerCritF2 0 c,
    innerCritF2 1 c]
  rw [show ((2:ℕ):ℝ) = 2 from by norm_num]
  by_cases hc : c = 2
  · rw [if_pos hc]
    simp
  · rw [if_neg hc]
    rw [sqrtsq_pair 1 1 (by norm_num) (by norm_num)]
    rw [show ((1:ℝ) + 1) / 2 = 1 by norm_num, Real.sqrt_one]

theorem maxCritF2 : max3 (F_step_norm_std_criteria 2 1 scenarioF2) = 1 := by
  rw [max3, critF2_c 0, critF2_c 1, critF2_c 2]
  rw [if_neg (by decide), if_neg (by decide), if_pos rfl]
  rw [max_self, max_eq_left (by norm_num : (0:ℝ) ≤ 1)]

theorem sqrt2_ne_one : Real.sqrt 2 ≠ 1 := by
  intro h
  have h2 : Real.sqrt 2 ^ 2 = 1 := by rw [h]; norm_num
  rw [Real.sq_sqrt (by norm_num : (0:ℝ) ≤ 2)] at h2
  norm_num at h2

/-- C6: on the spec scenario the mean force is zero and the per-atom
norm-of-deviation RMS dispersion, as computed by get_forces_temp, is
exactly 1; but the statistic of eval_uncert_F takes its norms over the
atom axis (axis=1), so it is indexed by force component, giving 1 at
component 0 and 0 at component 1 instead of the claimed per-atom value
1 for the single atom; on the second input the per-atom statistic is
sqrt 2 while even the maximum over components of the eval_uncert_F
statistic is 1, so the two computations genuinely diverge in value. -/
theorem C6_dispersion_statistic :
    (∀ c, F_step_avg 2 1 scenarioF 0 c = 0) ∧
    F_step_norm_std_temp 2 1 scenarioF 0 = 1 ∧
    F_step_norm_std_criteria 2 1 scenarioF 0 = 1 ∧
    F_step_norm_std_criteria 2 1 scenarioF 1 = 0 ∧
    F_step_norm_std_temp 2 1 scenarioF2 0 = Real.sqrt 2 ∧
    max3 (F_step_norm_std_criteria 2 1 scenarioF2) = 1 ∧
    F_step_norm_std_temp 2 1 scenarioF2 0 ≠
      max3 (F_step_norm_std_criteria 2 1 scenarioF2) := by
  refine ⟨avgF1, tempF1, critF1_0, critF1_1, tempF2, maxCritF2, ?_⟩
  rw [tempF2, maxCritF2]
  exact sqrt2_ne_one

end ALmoMD
